import Mathlib

/-!
Verification of the BHI160 driver crate: firmware blob validation and body
transform (src/firmware.rs), the parameter exchange handshake and register
encodings (src/lib.rs, src/registers.rs), the firmware upload and FIFO read
bus sequences (src/lib.rs), and the FIFO telemetry decoder (src/packet.rs).

Bytes are modelled as `Nat` (values below 256 on the wire); byte buffers as
`List Nat`.
-/

/-! ## Firmware (src/firmware.rs) -/

/-- `HEADER_LEN` from src/firmware.rs. -/
def HEADER_LEN : Nat := 16

/-- `SIGNATURE` from src/firmware.rs. -/
def SIGNATURE : Nat := 0x652A

/-- `u16::from_le_bytes [lo, hi]`. -/
def u16le (lo hi : Nat) : Nat := lo + 256 * hi

/-- `u32::from_le_bytes [b0, b1, b2, b3]`. -/
def u32le (b0 b1 b2 b3 : Nat) : Nat :=
  b0 + 256 * b1 + 65536 * b2 + 16777216 * b3

/-- `Firmware::signature`: little-endian u16 at offsets 0..=1. -/
def Firmware.signature (b : List Nat) : Nat := u16le (b.getD 0 0) (b.getD 1 0)

/-- `Firmware::rom_version`: little-endian u16 at offsets 2..=3. -/
def Firmware.rom_version (b : List Nat) : Nat := u16le (b.getD 2 0) (b.getD 3 0)

/-- `Firmware::crc`: little-endian u32 at offsets 4..=7. -/
def Firmware.crc (b : List Nat) : Nat :=
  u32le (b.getD 4 0) (b.getD 5 0) (b.getD 6 0) (b.getD 7 0)

/-- `Firmware::data_len`: little-endian u16 at offsets 12..=13. -/
def Firmware.data_len (b : List Nat) : Nat := u16le (b.getD 12 0) (b.getD 13 0)

/-- `Firmware::new`: the three validation checks, in source order. The wrapped
buffer is the input itself. -/
def Firmware.new (b : List Nat) : Option (List Nat) :=
  if b.length < HEADER_LEN then none
  else if Firmware.signature b ≠ SIGNATURE then none
  else if Firmware.data_len b + 16 ≠ b.length then none
  else some b

/-- `<[u8]>::array_chunks::<4>`: the complete 4-element chunks, in order; a
shorter trailing remainder is not produced. -/
def arrayChunks4 : List Nat → List (List Nat)
  | a :: b :: c :: d :: rest => [a, b, c, d] :: arrayChunks4 rest
  | _ => []

/-- `Firmware::body`: bytes after the 16-byte header, as 4-byte chunks with
each chunk reversed (`flat_map (rev)`), flattened. -/
def Firmware.body (b : List Nat) : List Nat :=
  ((arrayChunks4 (b.drop HEADER_LEN)).map List.reverse).flatten

/-- Claim C1: `Firmware::new b` returns `None` exactly when the buffer is
shorter than 16 bytes, or the little-endian u16 at offset 0 differs from
0x652A, or the little-endian u16 at offset 12 plus 16 differs from the buffer
length; on success the accessors return the little-endian fields at offsets
0, 2, 4 and 12 of the input. -/
theorem firmware_new_spec (b : List Nat) :
    (Firmware.new b = none ↔
      b.length < 16 ∨ Firmware.signature b ≠ 0x652A ∨
        Firmware.data_len b + 16 ≠ b.length) ∧
    (∀ f, Firmware.new b = some f →
      Firmware.signature f = u16le (b.getD 0 0) (b.getD 1 0) ∧
      Firmware.rom_version f = u16le (b.getD 2 0) (b.getD 3 0) ∧
      Firmware.crc f = u32le (b.getD 4 0) (b.getD 5 0) (b.getD 6 0) (b.getD 7 0) ∧
      Firmware.data_len f = u16le (b.getD 12 0) (b.getD 13 0)) := by
  constructor
  · unfold Firmware.new HEADER_LEN SIGNATURE
    split_ifs with h1 h2 h3 <;> simp_all
  · intro f hf
    unfold Firmware.new at hf
    split_ifs at hf
    cases hf
    exact ⟨rfl, rfl, rfl, rfl⟩

/-- A concrete well-formed 16-byte firmware blob (empty body). -/
def fwExample : List Nat :=
  [0x2A, 0x65, 0x12, 0x21, 1, 2, 3, 4, 0, 0, 0, 0, 0, 0, 0, 0]

/-- Witness for `firmware_new_spec` at a concrete valid blob. -/
theorem firmware_new_spec_witness :
    Firmware.signature fwExample = 0x652A :=
  (((firmware_new_spec fwExample).2 fwExample (by decide)).1).trans (by decide)

/-- A validated 17-byte firmware blob whose 1-byte body is not a multiple of
4 bytes: `data_len = 1`, body byte `0xAB`. -/
def fwOddBody : List Nat :=
  [0x2A, 0x65, 0, 0, 0, 0, 0, 0, 0, 0, 0, 0, 1, 0, 0, 0, 0xAB]

/-- Counterexample to claim C5 as stated: `fwOddBody` passes validation, its
raw body after the header is the single byte `0xAB`, yet `body()` yields no
bytes at all — the trailing remainder shorter than 4 bytes is dropped, so not
every body byte is covered. -/
theorem firmware_body_counterexample :
    (Firmware.new fwOddBody).isSome = true ∧
    List.drop 16 fwOddBody = [0xAB] ∧
    Firmware.body fwOddBody = [] :=
  ⟨rfl, rfl, rfl⟩

/-- Helper: a list shorter than 4 has no complete 4-byte chunk. -/
theorem arrayChunks4_short (l : List Nat) (h : l.length < 4) :
    arrayChunks4 l = [] := by
  rcases l with _ | ⟨a1, l⟩; · rfl
  rcases l with _ | ⟨a2, l⟩; · rfl
  rcases l with _ | ⟨a3, l⟩; · rfl
  rcases l with _ | ⟨a4, l⟩; · rfl
  simp at h
  omega

/-- Helper: `arrayChunks4` recovers the groups of a flattened list of 4-byte
groups followed by a remainder shorter than 4, which it drops. -/
theorem arrayChunks4_join (gs : List (Nat × Nat × Nat × Nat)) (r : List Nat)
    (hr : r.length < 4) :
    arrayChunks4 ((gs.map fun g => [g.1, g.2.1, g.2.2.1, g.2.2.2]).flatten ++ r)
      = gs.map fun g => [g.1, g.2.1, g.2.2.1, g.2.2.2] := by
  induction gs with
  | nil => simpa using arrayChunks4_short r hr
  | cons g gs ih =>
      simp only [List.map_cons, List.flatten_cons, List.cons_append,
        List.append_eq, List.nil_append, List.append_assoc, arrayChunks4, ih]

/-- Claim C5 (amended): for a validated-shape buffer whose body is a
flattened sequence of complete 4-byte groups `[a, b, c, d]` followed by any
remainder shorter than 4 bytes, `body()` yields exactly the complete groups
in order with each group emitted as `[d, c, b, a]` — covering every byte of
the complete groups — and silently drops the remainder (the counterexample
shows such a remainder can survive validation). -/
theorem firmware_body_transform (hdr : List Nat)
    (gs : List (Nat × Nat × Nat × Nat)) (r : List Nat)
    (hh : hdr.length = 16) (hr : r.length < 4) :
    Firmware.body
        (hdr ++ ((gs.map fun g => [g.1, g.2.1, g.2.2.1, g.2.2.2]).flatten ++ r))
      = (gs.map fun g => [g.2.2.2, g.2.2.1, g.2.1, g.1]).flatten := by
  unfold Firmware.body HEADER_LEN
  rw [show (16 : Nat) = hdr.length from hh.symm, List.drop_left,
    arrayChunks4_join gs r hr, List.map_map]
  rfl

/-- Witness for `firmware_body_transform`: a 16-byte header of zeros, the
single group `[1, 2, 3, 4]` and the 1-byte remainder `[9]` are emitted as
`[4, 3, 2, 1]` with the remainder dropped. -/
theorem firmware_body_transform_witness :
    Firmware.body (List.replicate 16 0
        ++ ((([(1, 2, 3, 4)] : List (Nat × Nat × Nat × Nat)).map
              fun g => [g.1, g.2.1, g.2.2.1, g.2.2.2]).flatten ++ [9]))
      = (([(1, 2, 3, 4)] : List (Nat × Nat × Nat × Nat)).map
          fun g => [g.2.2.2, g.2.2.1, g.2.1, g.1]).flatten :=
  firmware_body_transform (List.replicate 16 0) [(1, 2, 3, 4)] [9]
    (by decide) (by decide)

/-! ## Telemetry decoder (src/packet.rs, src/parameters/sensors.rs) -/

/-- `SensorId` from src/parameters/sensors.rs: one constructor per enumerated
code. -/
inductive SensorId where
  | None
  | RotationVector
  | RotationVectorWakeup
  | GameRotationVector
  | GameRotationVectorWakeup
  | GeomagneticRotationVector
  | GeomagneticRotationVectorWakeup
  | Accelerometer
  | AccelerometerWakeup
  | GeomagneticField
  | GeomagneticFieldWakeup
  | Orientation
  | OrientationWakeup
  | Gyroscope
  | GyroscopeWakeup
  | Gravity
  | GravityWakeup
  | LinearAcceleration
  | LinearAccelerationWakeup
  | Light
  | LightWakeup
  | Proximity
  | ProximityWakeup
  | Humidity
  | HumidityWakeup
  | StepCounter
  | StepCounterWakeup
  | Temperature
  | TemperatureWakeup
  | AmbientTemperature
  | AmbientTemperatureWakeup
  | Pressure
  | PressureWakeup
  | SignificantMotion
  | SignificantMotionWakeup
  | StepDetector
  | StepDetectorWakeup
  | TiltDetector
  | TiltDetectorWakeup
  | WakeGesture
  | WakeGestureWakeup
  | GlanceGesture
  | GlanceGestureWakeup
  | PickUpGesture
  | PickUpGestureWakeup
  | MagneticFieldUncalibrated
  | MagneticFieldUncalibratedWakeup
  | GyroscopeUncalibrated
  | GyroscopeUncalibratedWakeup
  | HeartRate
  | HeartRateWakeup
  | ActivityRecognition
  | ActivityRecognitionWakeup
  | Debug
  | RawAccel
  | RawMag
  | RawGyro
  | TimestampLsw
  | TimestampLswWakeup
  | TimestampMsw
  | TimestampMswWakeup
  | MetaEvent
  | MetaEventWakeup
  deriving DecidableEq, Repr

/-- `SensorId::from_bytes` (the `modular_bitfield` `Specifier` decode for the
8-bit enum): maps each declared discriminant to its variant; every other byte
is an invalid bit pattern (`Err`, modelled as `none`). -/
def SensorId.from_bytes (b : Nat) : Option SensorId :=
  match b with
  | 0 => some .None
  | 1 => some .Accelerometer
  | 2 => some .GeomagneticField
  | 3 => some .Orientation
  | 4 => some .Gyroscope
  | 5 => some .Light
  | 6 => some .Pressure
  | 7 => some .Temperature
  | 8 => some .Proximity
  | 9 => some .Gravity
  | 10 => some .LinearAcceleration
  | 11 => some .RotationVector
  | 12 => some .Humidity
  | 13 => some .AmbientTemperature
  | 14 => some .MagneticFieldUncalibrated
  | 15 => some .GameRotationVector
  | 16 => some .GyroscopeUncalibrated
  | 17 => some .SignificantMotion
  | 18 => some .StepDetector
  | 19 => some .StepCounter
  | 20 => some .GeomagneticRotationVector
  | 21 => some .HeartRate
  | 22 => some .TiltDetector
  | 23 => some .WakeGesture
  | 24 => some .GlanceGesture
  | 25 => some .PickUpGesture
  | 31 => some .ActivityRecognition
  | 33 => some .AccelerometerWakeup
  | 34 => some .GeomagneticFieldWakeup
  | 35 => some .OrientationWakeup
  | 36 => some .GyroscopeWakeup
  | 37 => some .LightWakeup
  | 38 => some .PressureWakeup
  | 39 => some .TemperatureWakeup
  | 40 => some .ProximityWakeup
  | 41 => some .GravityWakeup
  | 42 => some .LinearAccelerationWakeup
  | 43 => some .RotationVectorWakeup
  | 44 => some .HumidityWakeup
  | 45 => some .AmbientTemperatureWakeup
  | 46 => some .MagneticFieldUncalibratedWakeup
  | 47 => some .GameRotationVectorWakeup
  | 48 => some .GyroscopeUncalibratedWakeup
  | 49 => some .SignificantMotionWakeup
  | 50 => some .StepDetectorWakeup
  | 51 => some .StepCounterWakeup
  | 52 => some .GeomagneticRotationVectorWakeup
  | 53 => some .HeartRateWakeup
  | 54 => some .TiltDetectorWakeup
  | 55 => some .WakeGestureWakeup
  | 56 => some .GlanceGestureWakeup
  | 57 => some .PickUpGestureWakeup
  | 63 => some .ActivityRecognitionWakeup
  | 245 => some .Debug
  | 246 => some .TimestampLswWakeup
  | 247 => some .TimestampMswWakeup
  | 248 => some .MetaEventWakeup
  | 249 => some .RawGyro
  | 250 => some .RawMag
  | 251 => some .RawAccel
  | 252 => some .TimestampLsw
  | 253 => some .TimestampMsw
  | 254 => some .MetaEvent
  | _ => Option.none

/-- `SensorStatus` from src/packet.rs. -/
inductive SensorStatus where
  | Unreliable
  | Low
  | Medium
  | High
  deriving DecidableEq, Repr

/-- `impl TryFrom<u8> for SensorStatus`: 0-3 map to the four variants, any
other byte is `Err(())` (modelled as `none`). -/
def SensorStatus.try_from (src : Nat) : Option SensorStatus :=
  match src with
  | 0 => some .Unreliable
  | 1 => some .Low
  | 2 => some .Medium
  | 3 => some .High
  | _ => Option.none

/-- `MetaEvent` from src/packet.rs. -/
inductive MetaEvent where
  | FlushComplete (id : SensorId)
  | SampleRateChanged (id : SensorId)
  | PowerModeChanged (id : SensorId) (mode : Nat)
  | Error (reg state : Nat)
  | Reserved
  | SensorError (id : SensorId) (status : Nat)
  | FifoOverflow (count : Nat)
  | DynamicRangeChanged (id : SensorId)
  | FifoWatermark (remaining : Nat)
  | SelfTestResult (id : SensorId) (result : Nat)
  | Initialized (ramVer : Nat)
  deriving DecidableEq, Repr

/-- `MetaEvent::from_bytes` over the three payload bytes. -/
def MetaEvent.from_bytes (b0 b1 b2 : Nat) : Option MetaEvent :=
  match b0 with
  | 1 => (SensorId.from_bytes b1).map MetaEvent.FlushComplete
  | 2 => (SensorId.from_bytes b1).map MetaEvent.SampleRateChanged
  | 3 => (SensorId.from_bytes b1).map (MetaEvent.PowerModeChanged · b2)
  | 4 => some (MetaEvent.Error b1 b2)
  | 5 | 6 | 7 | 8 | 9 | 10 => some MetaEvent.Reserved
  | 11 => (SensorId.from_bytes b1).map (MetaEvent.SensorError · b2)
  | 12 => some (MetaEvent.FifoOverflow (u16le b1 b2))
  | 13 => (SensorId.from_bytes b1).map MetaEvent.DynamicRangeChanged
  | 14 => some (MetaEvent.FifoWatermark (u16le b1 b2))
  | 15 => (SensorId.from_bytes b1).map (MetaEvent.SelfTestResult · b2)
  | 16 => some (MetaEvent.Initialized (u16le b1 b2))
  | _ => Option.none

/-- The distinguishable `std::io::Error` values produced while decoding:
`UnexpectedEof` from an exhausted byte source, and the two
`ErrorKind::Other` errors constructed in src/packet.rs (the formatted
`InvalidBitPattern` message for an unrecognized sensor id byte, and the
"Invalid Meta Event" message). -/
inductive IoErr where
  | unexpectedEof
  | invalidSensorId (b : Nat)
  | invalidMetaEvent
  deriving DecidableEq, Repr

/-- Outcome of running a decoder on a byte list: success with the remaining
bytes, an `io::Error` result, or a Rust panic (`unwrap` on `Err` /
`todo!()`). -/
inductive RResult (α : Type) where
  | ok (a : α) (rest : List Nat)
  | ioError (e : IoErr)
  | panicked
  deriving DecidableEq, Repr

/-- The byte-reader monad: `std::io::Read` over an in-memory byte list. -/
abbrev ReadM (α : Type) : Type := List Nat → RResult α

def ReadM.pureR (a : α) : ReadM α := fun s => .ok a s

def ReadM.bindR (x : ReadM α) (f : α → ReadM β) : ReadM β := fun s =>
  match x s with
  | .ok a r => f a r
  | .ioError e => .ioError e
  | .panicked => .panicked

instance : Monad ReadM where
  pure := ReadM.pureR
  bind := ReadM.bindR

/-- A Rust panic inside a decode call. -/
def ReadM.panicM : ReadM α := fun _ => .panicked

/-- An `io::Error` returned from a decode call. -/
def ReadM.throwIo (e : IoErr) : ReadM α := fun _ => .ioError e

/-- `read_u8`: one byte, or `UnexpectedEof` on an exhausted source. -/
def read_u8 : ReadM Nat := fun s =>
  match s with
  | [] => .ioError .unexpectedEof
  | b :: r => .ok b r

/-- `read_exact` into an `n`-byte buffer. -/
def read_exact (n : Nat) : ReadM (List Nat) := fun s =>
  if n ≤ s.length then .ok (s.take n) (s.drop n) else .ioError .unexpectedEof

/-- Two's-complement reading of a 16-bit unsigned value as `i16`. -/
def toI16 (n : Nat) : Int := if n < 32768 then (n : Int) else (n : Int) - 65536

/-- Two's-complement reading of a 32-bit unsigned value as `i32`. -/
def toI32 (n : Nat) : Int :=
  if n < 2147483648 then (n : Int) else (n : Int) - 4294967296

/-- `read_i16::<LittleEndian>`. -/
def read_i16 : ReadM Int := do
  let lo ← read_u8
  let hi ← read_u8
  pure (toI16 (u16le lo hi))

/-- `read_u16::<LittleEndian>`. -/
def read_u16 : ReadM Nat := do
  let lo ← read_u8
  let hi ← read_u8
  pure (u16le lo hi)

/-- `read_u24::<LittleEndian>`. -/
def read_u24 : ReadM Nat := do
  let b0 ← read_u8
  let b1 ← read_u8
  let b2 ← read_u8
  pure (b0 + 256 * b1 + 65536 * b2)

/-- `read_u32::<LittleEndian>`. -/
def read_u32 : ReadM Nat := do
  let b0 ← read_u8
  let b1 ← read_u8
  let b2 ← read_u8
  let b3 ← read_u8
  pure (u32le b0 b1 b2 b3)

/-- `read_i32::<LittleEndian>`. -/
def read_i32 : ReadM Int := do
  let n ← read_u32
  pure (toI32 n)

/-- `SensorData` from src/packet.rs. Vectors and quaternions are modelled as
tuples of their components in x, y, z (, w) order. -/
inductive SensorData where
  | None
  | Event (code : Nat)
  | Scalar (v : Int)
  | VectorStatus (x y z : Int) (status : SensorStatus)
  | VectorBiasStatus (x y z bx bq bz : Int) (status : SensorStatus)
  | QuaternionAccuracy (x y z w accuracy : Int)
  | VectorTimestamp (x y z : Int) (timestamp : Nat)
  | Debug (bytes : List Nat)
  | MetaEvent (m : MetaEvent)
  deriving DecidableEq, Repr

/-- `SensorData::read_vector_status`: three `i16`s and a status byte; the
source converts the status byte with `try_into().unwrap()`, which panics on
an out-of-range byte. -/
def SensorData.read_vector_status : ReadM SensorData := do
  let x ← read_i16
  let y ← read_i16
  let z ← read_i16
  let s ← read_u8
  match SensorStatus.try_from s with
  | some st => pure (SensorData.VectorStatus x y z st)
  | Option.none => ReadM.panicM

/-- `SensorData::read_vector_bias_status`: six `i16`s and a status byte; the
status byte is converted with `try_into().unwrap()` as well. -/
def SensorData.read_vector_bias_status : ReadM SensorData := do
  let x ← read_i16
  let y ← read_i16
  let z ← read_i16
  let bx ← read_i16
  let bq ← read_i16
  let bz ← read_i16
  let s ← read_u8
  match SensorStatus.try_from s with
  | some st => pure (SensorData.VectorBiasStatus x y z bx bq bz st)
  | Option.none => ReadM.panicM

/-- `SensorData::read_quaternion_accuracy`: five `i16`s. -/
def SensorData.read_quaternion_accuracy : ReadM SensorData := do
  let x ← read_i16
  let y ← read_i16
  let z ← read_i16
  let w ← read_i16
  let acc ← read_i16
  pure (SensorData.QuaternionAccuracy x y z w acc)

/-- `SensorData::read_vector_timestamp`: three `i32`s and a `u32`. -/
def SensorData.read_vector_timestamp : ReadM SensorData := do
  let x ← read_i32
  let y ← read_i32
  let z ← read_i32
  let t ← read_u32
  pure (SensorData.VectorTimestamp x y z t)

/-- `SensorData::read_metaevent`: three bytes, then `MetaEvent::from_bytes`;
a failed meta-event decode is the `ErrorKind::Other` "Invalid Meta Event"
io error. -/
def SensorData.read_metaevent : ReadM SensorData := do
  let bytes ← read_exact 3
  match MetaEvent.from_bytes (bytes.getD 0 0) (bytes.getD 1 0) (bytes.getD 2 0) with
  | some m => pure (SensorData.MetaEvent m)
  | Option.none => ReadM.throwIo .invalidMetaEvent

/-- `Event` from src/packet.rs. -/
structure Event where
  id : SensorId
  data : SensorData
  deriving DecidableEq, Repr

/-- `Event::read`: one sensor-id byte (an unrecognized byte is mapped to an
`ErrorKind::Other` io error), then the id-dependent payload dispatch copied
from the source match. -/
def Event.read : ReadM Event := do
  let b ← read_u8
  match SensorId.from_bytes b with
  | Option.none => ReadM.throwIo (.invalidSensorId b)
  | some id => do
    let data ←
      match id with
      | .None => ReadM.pureR SensorData.None
      | .RotationVector
      | .RotationVectorWakeup
      | .GameRotationVector
      | .GameRotationVectorWakeup
      | .GeomagneticRotationVector
      | .GeomagneticRotationVectorWakeup => SensorData.read_quaternion_accuracy
      | .Accelerometer
      | .AccelerometerWakeup
      | .GeomagneticField
      | .GeomagneticFieldWakeup
      | .Orientation
      | .OrientationWakeup
      | .Gyroscope
      | .GyroscopeWakeup
      | .Gravity
      | .GravityWakeup
      | .LinearAcceleration
      | .LinearAccelerationWakeup => SensorData.read_vector_status
      | .Light | .LightWakeup | .Proximity | .ProximityWakeup
      | .Humidity | .HumidityWakeup => do
          let v ← read_i16
          ReadM.pureR (SensorData.Scalar v)
      | .StepCounter | .StepCounterWakeup => do
          let v ← read_u16
          ReadM.pureR (SensorData.Scalar (Int.ofNat v))
      | .Temperature | .TemperatureWakeup
      | .AmbientTemperature | .AmbientTemperatureWakeup => do
          let v ← read_i16
          ReadM.pureR (SensorData.Scalar v)
      | .Pressure | .PressureWakeup => do
          let v ← read_u24
          ReadM.pureR (SensorData.Scalar (Int.ofNat v))
      | .SignificantMotion
      | .SignificantMotionWakeup
      | .StepDetector
      | .StepDetectorWakeup
      | .TiltDetector
      | .TiltDetectorWakeup
      | .WakeGesture
      | .WakeGestureWakeup
      | .GlanceGesture
      | .GlanceGestureWakeup
      | .PickUpGesture
      | .PickUpGestureWakeup => do
          let v ← read_u8
          ReadM.pureR (SensorData.Event v)
      | .MagneticFieldUncalibrated
      | .MagneticFieldUncalibratedWakeup
      | .GyroscopeUncalibrated
      | .GyroscopeUncalibratedWakeup => SensorData.read_vector_bias_status
      | .HeartRate | .HeartRateWakeup => do
          let v ← read_u8
          ReadM.pureR (SensorData.Scalar (Int.ofNat v))
      | .ActivityRecognition | .ActivityRecognitionWakeup => do
          let v ← read_u16
          ReadM.pureR (SensorData.Scalar (Int.ofNat v))
      | .Debug => do
          let buf ← read_exact 13
          ReadM.pureR (SensorData.Debug buf)
      | .RawAccel | .RawMag | .RawGyro => SensorData.read_vector_timestamp
      | .TimestampLsw | .TimestampLswWakeup => do
          let v ← read_u16
          ReadM.pureR (SensorData.Scalar (Int.ofNat v))
      | .TimestampMsw | .TimestampMswWakeup => do
          let v ← read_u16
          ReadM.pureR (SensorData.Scalar (Int.ofNat v))
      | .MetaEvent | .MetaEventWakeup => SensorData.read_metaevent
    pure { id := id, data := data }

/-- `Event::is_none`. -/
def Event.is_none (e : Event) : Bool :=
  match e.id with
  | .None => true
  | _ => false

/-- The outcome of one `EventReader::next` call: an event with the remaining
bytes, the iterator ending (`None`), or a panic propagating out of
`Event::read`. -/
inductive NextResult where
  | yields (e : Event) (rest : List Nat)
  | ended
  | panicked
  deriving DecidableEq, Repr

/-- `<EventReader as Iterator>::next`: `Event::read(..).ok()?` converts any
io error into `None`, and a `None`-id event also ends the iteration. -/
def EventReader.next (s : List Nat) : NextResult :=
  match Event.read s with
  | .ok e rest => if e.is_none then .ended else .yields e rest
  | .ioError _ => .ended
  | .panicked => .panicked

/-- Sanity check mirroring the crate's `read_single` unit test: decoding
`[0x01, 0xFE, 0xFF, 0x05, 0x00, 0x69, 0x08, 0x02]` yields an Accelerometer
vector `(-2, 5, 2153)` with Medium status and consumes all eight bytes. -/
theorem event_read_single_test :
    Event.read [0x01, 0xFE, 0xFF, 0x05, 0x00, 0x69, 0x08, 0x02]
      = RResult.ok
          { id := SensorId.Accelerometer,
            data := SensorData.VectorStatus (-2) 5 2153 SensorStatus.Medium }
          [] := by
  decide

/-- Evaluation rule for the reader-monad bind. -/
theorem ReadM.bind_apply (x : ReadM α) (f : α → ReadM β) (s : List Nat) :
    (x >>= f) s
      = match x s with
        | .ok a r => f a r
        | .ioError e => .ioError e
        | .panicked => .panicked := rfl

/-- Claim C2 (status byte decode, code bug in the out-of-range case): bytes
0-3 indeed decode to Unreliable/Low/Medium/High, and any byte 4 or greater
fails the conversion; but at such a byte `read_vector_status` panics through
`try_into().unwrap()` (flagged `TODO` in the source) instead of returning a
decode-error result, as the concrete Accelerometer record with status byte 4
shows. -/
theorem sensor_status_decode_bug :
    SensorStatus.try_from 0 = some SensorStatus.Unreliable ∧
    SensorStatus.try_from 1 = some SensorStatus.Low ∧
    SensorStatus.try_from 2 = some SensorStatus.Medium ∧
    SensorStatus.try_from 3 = some SensorStatus.High ∧
    (∀ s, 4 ≤ s → SensorStatus.try_from s = Option.none) ∧
    Event.read [1, 0, 0, 0, 0, 0, 0, 4] = RResult.panicked := by
  refine ⟨rfl, rfl, rfl, rfl, ?_, by decide⟩
  intro s hs
  obtain ⟨n, rfl⟩ : ∃ n, s = n + 4 := ⟨s - 4, by omega⟩
  rfl

/-- Witness for `sensor_status_decode_bug` at status byte 7. -/
theorem sensor_status_decode_bug_witness :
    SensorStatus.try_from 7 = Option.none :=
  sensor_status_decode_bug.2.2.2.2.1 7 (by decide)

/-- Counterexample to claim C4 as stated: on the byte source `[1]` (an
Accelerometer id with the record body missing) `Event::read` reports the
exhaustion as an io error, yet `EventReader::next` returns the normal end of
iteration — observably identical to the terminator source `[0]` — so the
iterator does not propagate the I/O failure to its consumer. -/
theorem event_stream_eof_counterexample :
    Event.read [1] = RResult.ioError IoErr.unexpectedEof ∧
    EventReader.next [1] = NextResult.ended ∧
    EventReader.next [0] = NextResult.ended := by
  decide

/-- Claim C4 (amended): `Event::read` itself distinguishes the two end
conditions — a `None` (0) sensor-id byte decodes to an ok event with `None`
payload consuming just that byte (and the iterator ends without error), while
an exhausted source gives the `UnexpectedEof` io error — but
`EventReader::next` converts every `Event::read` io error, exhaustion
included, into the normal end of iteration. -/
theorem event_stream_end_conditions (rest : List Nat) :
    Event.read (0 :: rest)
      = RResult.ok { id := SensorId.None, data := SensorData.None } rest ∧
    EventReader.next (0 :: rest) = NextResult.ended ∧
    Event.read [] = RResult.ioError IoErr.unexpectedEof ∧
    (∀ input e, Event.read input = RResult.ioError e →
      EventReader.next input = NextResult.ended) := by
  refine ⟨rfl, rfl, rfl, ?_⟩
  intro input e h
  unfold EventReader.next
  rw [h]

/-- Witness for `event_stream_end_conditions` at the source `[1]`. -/
theorem event_stream_end_conditions_witness :
    EventReader.next [1] = NextResult.ended :=
  (event_stream_end_conditions []).2.2.2 [1] IoErr.unexpectedEof (by decide)

/-- Claim C8: meta-event bytes `[12, 5, 0]` decode to `FifoOverflow 5` (the
trailing pair read little-endian); leading codes 5 through 10 decode to
`Reserved` whatever the trailing pair is; and a leading code of 0 or above 16
decodes to no meta-event. -/
theorem metaevent_from_bytes_spec (x y : Nat) :
    MetaEvent.from_bytes 12 5 0 = some (MetaEvent.FifoOverflow 5) ∧
    MetaEvent.from_bytes 5 x y = some MetaEvent.Reserved ∧
    MetaEvent.from_bytes 6 x y = some MetaEvent.Reserved ∧
    MetaEvent.from_bytes 7 x y = some MetaEvent.Reserved ∧
    MetaEvent.from_bytes 8 x y = some MetaEvent.Reserved ∧
    MetaEvent.from_bytes 9 x y = some MetaEvent.Reserved ∧
    MetaEvent.from_bytes 10 x y = some MetaEvent.Reserved ∧
    MetaEvent.from_bytes 0 x y = Option.none ∧
    (∀ c, 16 < c → MetaEvent.from_bytes c x y = Option.none) := by
  refine ⟨by decide, rfl, rfl, rfl, rfl, rfl, rfl, rfl, ?_⟩
  intro c hc
  obtain ⟨n, rfl⟩ : ∃ n, c = n + 17 := ⟨c - 17, by omega⟩
  rfl

/-- Witness for `metaevent_from_bytes_spec` at code 17. -/
theorem metaevent_from_bytes_spec_witness :
    MetaEvent.from_bytes 17 0 0 = Option.none :=
  (metaevent_from_bytes_spec 0 0).2.2.2.2.2.2.2.2 17 (by decide)

/-- Claim C9: a first byte that is not an enumerated `SensorId` code makes
`Event::read` fail with the decode (io) error carrying that byte, producing
no event value, whatever follows in the stream. -/
theorem event_read_unknown_sensor_id (b : Nat) (rest : List Nat)
    (h : SensorId.from_bytes b = Option.none) :
    Event.read (b :: rest) = RResult.ioError (IoErr.invalidSensorId b) := by
  unfold Event.read
  rw [ReadM.bind_apply]
  simp only [read_u8]
  rw [h]
  rfl

/-- Witness for `event_read_unknown_sensor_id` at the unused code 26. -/
theorem event_read_unknown_sensor_id_witness :
    Event.read [26] = RResult.ioError (IoErr.invalidSensorId 26) :=
  event_read_unknown_sensor_id 26 [] (by decide)

/-! ## Bus transactions (src/lib.rs, src/registers.rs) -/

/-- One bus transaction: a register write of the given bytes, or a register
read of the given length. -/
inductive BusOp where
  | write (addr : Nat) (data : List Nat)
  | read (addr : Nat) (len : Nat)
  deriving DecidableEq, Repr

/-- The bus as seen by the driver: an oracle giving the bytes every read
returns, plus the trace of transactions issued so far. -/
structure BusState where
  resp : Nat → Nat → List Nat
  trace : List BusOp

/-- The driver monad over the bus: sequential, synchronous transactions. -/
abbrev BusM (α : Type) : Type := BusState → α × BusState

def BusM.pureB (a : α) : BusM α := fun s => (a, s)

def BusM.bindB (x : BusM α) (f : α → BusM β) : BusM β := fun s =>
  match x s with
  | (a, s1) => f a s1

instance : Monad BusM where
  pure := BusM.pureB
  bind := BusM.bindB

/-- `Interface::write`: one bus write transaction. -/
def Interface.write (addr : Nat) (data : List Nat) : BusM Unit := fun s =>
  ((), { s with trace := s.trace ++ [BusOp.write addr data] })

/-- `Interface::read`: one bus read transaction returning the oracle's
bytes. -/
def Interface.read (addr : Nat) (len : Nat) : BusM (List Nat) := fun s =>
  (s.resp addr len, { s with trace := s.trace ++ [BusOp.read addr len] })

/-- Evaluation rule for the bus-monad bind. -/
theorem BusM.bindB_apply (x : BusM α) (f : α → BusM β) (s : BusState) :
    (x >>= f) s = f (x s).1 (x s).2 := rfl

/-- Evaluation rule for the bus-monad pure. -/
theorem BusM.pureB_apply (a : α) (s : BusState) : (pure a : BusM α) s = (a, s) := rfl

/-- `ChipControl::into_bytes`: bit 0 is `cpu_run_request`, bit 1 is
`host_upload_enable`, upper six bits skipped (zero). -/
def ChipControl.into_bytes (cpuRunRequest hostUploadEnable : Bool) : List Nat :=
  [(if cpuRunRequest then 1 else 0) + 2 * (if hostUploadEnable then 1 else 0)]

/-- `UploadAddress::into` `[u8; 2]`: big-endian encoding. -/
def UploadAddress.into_bytes (v : Nat) : List Nat := [v / 256 % 256, v % 256]

/-- `UploadCrc::from` `[u8; 4]`: little-endian u32 decoding. -/
def UploadCrc.from_bytes (bs : List Nat) : Nat :=
  u32le (bs.getD 0 0) (bs.getD 1 0) (bs.getD 2 0) (bs.getD 3 0)

/-- `BytesRemaining::from` `[u8; 2]`: little-endian u16 decoding. -/
def BytesRemaining.from_bytes (bs : List Nat) : Nat :=
  u16le (bs.getD 0 0) (bs.getD 1 0)

/-- `<[u8]>::chunks_exact(16)`: the complete 16-byte chunks in order; a
shorter trailing remainder is not produced. -/
def chunksExact16 : List Nat → List (List Nat)
  | b1 :: b2 :: b3 :: b4 :: b5 :: b6 :: b7 :: b8 ::
      b9 :: b10 :: b11 :: b12 :: b13 :: b14 :: b15 :: b16 :: rest =>
      [b1, b2, b3, b4, b5, b6, b7, b8, b9, b10, b11, b12, b13, b14, b15, b16]
        :: chunksExact16 rest
  | _ => []

/-- The `for chunk in firmware.chunks_exact(16)` loop body of
`upload_raw_firmware`: one 16-byte write to the upload-data register per
chunk. -/
def uploadChunks : List (List Nat) → BusM Unit
  | [] => BusM.pureB ()
  | c :: rest => do
      Interface.write 0x96 c
      uploadChunks rest

/-- `Bhi160::upload_raw_firmware`: halt the CPU and arm upload mode, reset
the upload address to 0, burst the complete 16-byte chunks, then read and
return the CRC register. -/
def Bhi160.upload_raw_firmware (firmware : List Nat) : BusM Nat := do
  Interface.write 0x34 (ChipControl.into_bytes false true)
  Interface.write 0x94 (UploadAddress.into_bytes 0)
  uploadChunks (chunksExact16 firmware)
  let crcBytes ← Interface.read 0x97 4
  pure (UploadCrc.from_bytes crcBytes)

/-- `Bhi160::read_fifo`: read the BytesRemaining register, clamp to the
buffer length, and issue the FIFO read only for a positive transfer size. -/
def Bhi160.read_fifo (bufLen : Nat) : BusM (List Nat) := do
  let bs ← Interface.read 0x38 2
  let remaining := BytesRemaining.from_bytes bs
  let e := min bufLen remaining
  if 0 < e then
    Interface.read 0x00 e
  else
    pure []

/-- Helper: a list shorter than 16 has no complete 16-byte chunk. -/
theorem chunksExact16_short (l : List Nat) (h : l.length < 16) :
    chunksExact16 l = [] := by
  rcases l with _ | ⟨a1, l⟩; · rfl
  rcases l with _ | ⟨a2, l⟩; · rfl
  rcases l with _ | ⟨a3, l⟩; · rfl
  rcases l with _ | ⟨a4, l⟩; · rfl
  rcases l with _ | ⟨a5, l⟩; · rfl
  rcases l with _ | ⟨a6, l⟩; · rfl
  rcases l with _ | ⟨a7, l⟩; · rfl
  rcases l with _ | ⟨a8, l⟩; · rfl
  rcases l with _ | ⟨a9, l⟩; · rfl
  rcases l with _ | ⟨a10, l⟩; · rfl
  rcases l with _ | ⟨a11, l⟩; · rfl
  rcases l with _ | ⟨a12, l⟩; · rfl
  rcases l with _ | ⟨a13, l⟩; · rfl
  rcases l with _ | ⟨a14, l⟩; · rfl
  rcases l with _ | ⟨a15, l⟩; · rfl
  rcases l with _ | ⟨a16, l⟩; · rfl
  simp at h
  omega

/-- Helper: `chunksExact16` recovers the chunks of a flattened list of
16-byte chunks followed by a remainder shorter than 16. -/
theorem chunksExact16_flatten (gs : List (List Nat)) (r : List Nat)
    (hg : ∀ g ∈ gs, g.length = 16) (hr : r.length < 16) :
    chunksExact16 (gs.flatten ++ r) = gs := by
  induction gs with
  | nil => simpa using chunksExact16_short r hr
  | cons g gs ih =>
      have hglen : g.length = 16 := hg g (List.mem_cons_self g gs)
      match g, hglen with
      | [b1, b2, b3, b4, b5, b6, b7, b8, b9, b10, b11, b12, b13, b14, b15, b16],
          _ =>
        simp only [List.flatten_cons, List.cons_append, List.append_eq,
          List.nil_append, List.append_assoc, chunksExact16]
        exact List.cons_eq_cons.mpr ⟨rfl,
          by
            have := ih (fun x hx => hg x (List.mem_cons_of_mem _ hx))
            simpa [List.append_assoc] using this⟩

/-- Helper: the chunk-burst loop appends one upload-data write per chunk, in
order, and changes nothing else. -/
theorem uploadChunks_trace (cs : List (List Nat)) (s : BusState) :
    uploadChunks cs s
      = ((), { s with trace := s.trace ++ cs.map fun c => BusOp.write 0x96 c }) := by
  induction cs generalizing s with
  | nil => simp [uploadChunks, BusM.pureB]
  | cons c cs ih =>
      simp only [uploadChunks, BusM.bindB_apply, Interface.write, ih,
        List.map_cons, List.append_assoc, List.cons_append, List.nil_append]

/-- Claim C6: for a body made of complete 16-byte chunks plus a dropped
remainder, `upload_raw_firmware` issues exactly, in order: the chip-control
write with run-request false and upload-enable true, the big-endian
upload-address write of 0, one 16-byte upload-data write per complete chunk
in order, and a final 4-byte CRC read whose little-endian value is
returned. -/
theorem upload_raw_firmware_spec (resp : Nat → Nat → List Nat)
    (gs : List (List Nat)) (r : List Nat)
    (hg : ∀ g ∈ gs, g.length = 16) (hr : r.length < 16) :
    Bhi160.upload_raw_firmware (gs.flatten ++ r) { resp := resp, trace := [] }
      = (UploadCrc.from_bytes (resp 0x97 4),
         { resp := resp,
           trace :=
             BusOp.write 0x34 (ChipControl.into_bytes false true)
               :: BusOp.write 0x94 (UploadAddress.into_bytes 0)
               :: ((gs.map fun g => BusOp.write 0x96 g)
                    ++ [BusOp.read 0x97 4]) }) := by
  unfold Bhi160.upload_raw_firmware
  simp only [BusM.bindB_apply, Interface.write, Interface.read,
    chunksExact16_flatten gs r hg hr, uploadChunks_trace, List.nil_append,
    List.cons_append, List.append_assoc]
  rfl

/-- Witness for `upload_raw_firmware_spec`: a single all-zero 16-byte chunk
with empty remainder, on a bus whose CRC register reads `[1, 0, 0, 0]`. -/
theorem upload_raw_firmware_spec_witness :
    Bhi160.upload_raw_firmware
        (([List.replicate 16 0] : List (List Nat)).flatten ++ [])
        { resp := fun _ _ => [1, 0, 0, 0], trace := [] }
      = (UploadCrc.from_bytes ((fun _ _ => [1, 0, 0, 0] : Nat → Nat → List Nat) 0x97 4),
         { resp := fun _ _ => [1, 0, 0, 0],
           trace :=
             BusOp.write 0x34 (ChipControl.into_bytes false true)
               :: BusOp.write 0x94 (UploadAddress.into_bytes 0)
               :: ((([List.replicate 16 0] : List (List Nat)).map
                      fun g => BusOp.write 0x96 g)
                    ++ [BusOp.read 0x97 4]) }) :=
  upload_raw_firmware_spec (fun _ _ => [1, 0, 0, 0]) [List.replicate 16 0] []
    (by simp) (by simp)

/-- Claim C10: `read_fifo` first reads the 2-byte BytesRemaining register;
with `remaining` its little-endian value, the returned slice has length
`min bufLen remaining`, and the FIFO-data read at address 0 is issued exactly
when that length is positive (and for exactly that many bytes, so an excess
of `remaining` over the buffer is not transferred). -/
theorem read_fifo_spec (resp : Nat → Nat → List Nat)
    (hresp : ∀ a n, (resp a n).length = n) (bufLen : Nat) :
    (Bhi160.read_fifo bufLen { resp := resp, trace := [] }).1.length
        = min bufLen (BytesRemaining.from_bytes (resp 0x38 2)) ∧
    (Bhi160.read_fifo bufLen { resp := resp, trace := [] }).2.trace
        = BusOp.read 0x38 2
            :: (if 0 < min bufLen (BytesRemaining.from_bytes (resp 0x38 2))
                then [BusOp.read 0x00
                        (min bufLen (BytesRemaining.from_bytes (resp 0x38 2)))]
                else []) := by
  unfold Bhi160.read_fifo
  simp only [BusM.bindB_apply, Interface.read]
  by_cases h : 0 < min bufLen (BytesRemaining.from_bytes (resp 0x38 2))
  · simp [h, Interface.read, hresp]
  · simp [h, BusM.pureB_apply]
    omega

/-- Witness for `read_fifo_spec`: a bus answering every read with a run of
ones, and a 3-byte caller buffer. -/
theorem read_fifo_spec_witness :
    (Bhi160.read_fifo 3
        { resp := fun _ n => List.replicate n 1, trace := [] }).1.length
        = min 3 (BytesRemaining.from_bytes
            ((fun _ n => (List.replicate n 1 : List Nat)) 0x38 2)) ∧
    (Bhi160.read_fifo 3
        { resp := fun _ n => List.replicate n 1, trace := [] }).2.trace
        = BusOp.read 0x38 2
            :: (if 0 < min 3 (BytesRemaining.from_bytes
                    ((fun _ n => (List.replicate n 1 : List Nat)) 0x38 2))
                then [BusOp.read 0x00
                        (min 3 (BytesRemaining.from_bytes
                          ((fun _ n => (List.replicate n 1 : List Nat)) 0x38 2)))]
                else []) :=
  read_fifo_spec (fun _ n => List.replicate n 1) (by simp) 3

/-! ## Parameter exchange (src/lib.rs, src/registers.rs) -/

/-- `ParameterAcknowledge` from src/registers.rs. -/
inductive ParameterAcknowledge where
  | RequestId (x : Nat)
  | Error
  deriving DecidableEq, Repr

/-- `ParameterAcknowledge::from` `[u8; 1]`: byte 0x80 is `Error`, anything
else is `RequestId`. -/
def ParameterAcknowledge.from_bytes (b : Nat) : ParameterAcknowledge :=
  if b = 0x80 then .Error else .RequestId b

/-- How one poll loop of `read_param`/`write_param` can leave: by the
matching acknowledge (`break`), or through the `todo` arm of the `Error`
acknowledge, which panics. -/
inductive PollOutcome where
  | exits
  | panicked
  deriving DecidableEq, Repr

/-- The acknowledge poll loop shared by `read_param` (target `T::PARAM`) and
`write_param` (target the encoded request byte): each iteration reads the
acknowledge register; `Error` hits the `todo` arm, the matching `RequestId`
breaks, any other value continues. The argument list is the sequence of
acknowledge bytes the device delivers; `none` means the loop is still
polling when the sequence runs out. -/
def paramAckLoop (target : Nat) : List Nat → Option PollOutcome
  | [] => Option.none
  | b :: rest =>
    match ParameterAcknowledge.from_bytes b with
    | .Error => some .panicked
    | .RequestId x => if x = target then some .exits else paramAckLoop target rest

/-- Claim C3 (code bug in the `Error` case): the acknowledge byte 0x80
decodes to `Error` and drives the poll loop of `read_param`/`write_param`
into the `todo` arm — a panic, not a typed failure returned to the caller —
while a non-matching `RequestId` acknowledge is skipped and polling
continues, and the matching acknowledge exits the loop. -/
theorem param_ack_error_bug :
    ParameterAcknowledge.from_bytes 0x80 = ParameterAcknowledge.Error ∧
    paramAckLoop 1 [0x80] = some PollOutcome.panicked ∧
    (∀ t b rest, b ≠ 0x80 → b ≠ t →
      paramAckLoop t (b :: rest) = paramAckLoop t rest) ∧
    (∀ t rest, t ≠ 0x80 →
      paramAckLoop t (t :: rest) = some PollOutcome.exits) := by
  refine ⟨rfl, rfl, ?_, ?_⟩
  · intro t b rest hb ht
    simp [paramAckLoop, ParameterAcknowledge.from_bytes, hb, ht]
  · intro t rest ht
    simp [paramAckLoop, ParameterAcknowledge.from_bytes, ht]

/-- Witness for `param_ack_error_bug`: target 1 with acknowledge bytes 5
(skipped) then 1 (match). -/
theorem param_ack_error_bug_witness :
    paramAckLoop 1 [5, 1] = some PollOutcome.exits := by
  have hskip := param_ack_error_bug.2.2.1 1 5 [1] (by decide) (by decide)
  have hexit := param_ack_error_bug.2.2.2 1 [] (by decide)
  rw [hskip, hexit]

/-- `ParameterPageSelect::into_bytes`: `parameter_page` in the low nibble,
`parameter_size` in the high nibble. -/
def ParameterPageSelect.into_bytes (page size : Nat) : List Nat :=
  [page % 16 + 16 * (size % 16)]

/-- The page-select register value written by `read_param` for a parameter
of byte width `w`: size field `w` when `w < 16`, else 0. -/
def read_param_page_select (page w : Nat) : List Nat :=
  ParameterPageSelect.into_bytes page (if w < 16 then w else 0)

/-- The page-select register value written by `write_param` for a parameter
of byte width `w`: size field `w` when `w < 8`, else 0. -/
def write_param_page_select (page w : Nat) : List Nat :=
  ParameterPageSelect.into_bytes page (if w < 8 then w else 0)

/-- Claim C7: the size field (the high nibble of the page-select byte) is 0
when the width equals the direction's maximum — 16 for a read, 8 for a write
— and is the literal width for every smaller width. -/
theorem param_page_select_size_spec (page w : Nat) :
    (read_param_page_select page 16).getD 0 0 / 16 = 0 ∧
    (w < 16 → (read_param_page_select page w).getD 0 0 / 16 = w) ∧
    (write_param_page_select page 8).getD 0 0 / 16 = 0 ∧
    (w < 8 → (write_param_page_select page w).getD 0 0 / 16 = w) := by
  refine ⟨?_, ?_, ?_, ?_⟩
  · simp [read_param_page_select, ParameterPageSelect.into_bytes]
  · intro hw
    simp [read_param_page_select, ParameterPageSelect.into_bytes, hw]
    omega
  · simp [write_param_page_select, ParameterPageSelect.into_bytes]
  · intro hw
    simp [write_param_page_select, ParameterPageSelect.into_bytes, hw]
    omega

/-- Witness for `param_page_select_size_spec`: page 3 (Sensors), width 5. -/
theorem param_page_select_size_spec_witness :
    (read_param_page_select 3 5).getD 0 0 / 16 = 5 :=
  (param_page_select_size_spec 3 5).2.1 (by decide)
